import Mathlib

/-!
Verification of the pause-detection / conversational-flow controller of the
ai-interview-summarizer repository.

The main-thread module state of `src/main.ts` is embedded as the structure
`AppState`; the interval callback installed by the start handler (the "poll
tick"), the recognition result handlers `appendFinalTranscript` /
`setInterimTranscript`, and the summary-worker message handlers are embedded
as pure state-transition functions.  Timestamps (`performance.now()`) are
modelled as `Nat` milliseconds; JavaScript number subtraction appearing only
inside `< bound` guards coincides with truncated `Nat` subtraction there
(a negative difference and a zero difference both fail the `>=` guard).
Dispatches to the worker (`postMessage`) are modelled as an output list.
-/

namespace InterviewSummarizer

/-- `FILLER_COOLDOWN_MS` from `src/main.ts`. -/
def FILLER_COOLDOWN_MS : Nat := 8000

/-- `FILLER_PAUSE_MS` from `src/main.ts`. -/
def FILLER_PAUSE_MS : Nat := 3500

/-- `RESPONSE_WAIT_MS` from `src/main.ts`. -/
def RESPONSE_WAIT_MS : Nat := 6000

/-- `SUMMARY_TRIGGER_SENTENCES` from `src/main.ts`. -/
def SUMMARY_TRIGGER_SENTENCES : Nat := 3

/-- `SUMMARY_SENTENCES_WINDOW` from `src/main.ts`. -/
def SUMMARY_SENTENCES_WINDOW : Nat := 30

/-- `MAX_TRANSCRIPT_SENTENCES` from `src/main.ts`. -/
def MAX_TRANSCRIPT_SENTENCES : Nat := 60

/-- `arr.slice(-n)` on a JavaScript array: the most recent `n` elements. -/
def sliceLast (n : Nat) (l : List String) : List String :=
  l.drop (l.length - n)

/-- JavaScript `String.prototype.trim()`: strip leading and trailing
whitespace. -/
def jsTrim (s : String) : String :=
  ⟨((s.data.dropWhile Char.isWhitespace).reverse.dropWhile Char.isWhitespace).reverse⟩

/-- The mutable module-level state of `src/main.ts` that the flow controller,
the recognition result handlers and the summarization dispatcher read and
write during one interview.  DOM elements and the recognition session object
are external and not part of the controller state. -/
structure AppState where
  transcriptBuffer : List String
  lastFillerTime : Nat
  sentencesSinceLastFiller : Nat
  lastFinalTranscriptMs : Nat
  lastInterimTranscriptMs : Nat
  isSpeakingFiller : Bool
  lastSpeechActivityMs : Nat
  summaryWorkerReady : Bool
  summaryInFlight : Bool
  awaitingResponseUntilMs : Option Nat
  speechActivityAtFillerMs : Option Nat
  lockFillersUntilSpeech : Bool
  deriving Repr, DecidableEq

/-- Messages the main thread posts to the summary worker
(`summaryWorker.postMessage` calls of `src/main.ts`).  Prompt requests carry
the timestamp of the tick that issued them. -/
inductive Out where
  | summarizeReq (text : String)
  | fillerReq (context : String) (issuedAt : Nat)
  | followupReq (context : String) (issuedAt : Nat)
  deriving Repr, DecidableEq

/-- `transcriptBuffer.push(text)` followed by the
`if (length > MAX_TRANSCRIPT_SENTENCES) slice(-MAX_TRANSCRIPT_SENTENCES)`
trim in `appendFinalTranscript`. -/
def pushTrim (buf : List String) (text : String) : List String :=
  let b := buf ++ [text]
  if MAX_TRANSCRIPT_SENTENCES < b.length then sliceLast MAX_TRANSCRIPT_SENTENCES b else b

/-- `appendFinalTranscript` of `src/main.ts` (lines 258-293): buffer update,
activity stamping, clearing of the prompt-cycle state, and the summarization
trigger check. -/
def appendFinalTranscript (text : String) (now : Nat) (s : AppState) : AppState × List Out :=
  let buf := pushTrim s.transcriptBuffer text
  let s1 : AppState :=
    { s with
      transcriptBuffer := buf
      sentencesSinceLastFiller := s.sentencesSinceLastFiller + 1
      lastFinalTranscriptMs := now
      lastSpeechActivityMs := now
      lockFillersUntilSpeech := false
      awaitingResponseUntilMs := none
      speechActivityAtFillerMs := none }
  if SUMMARY_TRIGGER_SENTENCES ≤ buf.length ∧ s1.summaryWorkerReady = true ∧
      s1.summaryInFlight = false then
    ({ s1 with summaryInFlight := true },
     [Out.summarizeReq (String.intercalate " " (sliceLast SUMMARY_SENTENCES_WINDOW buf))])
  else
    (s1, [])

/-- `setInterimTranscript` of `src/main.ts` (lines 295-311); the timestamp and
state updates are guarded by `if (text)`, i.e. by the argument being a
non-empty string. -/
def setInterimTranscript (text : String) (now : Nat) (s : AppState) : AppState :=
  if text ≠ "" then
    { s with
      lastInterimTranscriptMs := now
      lastSpeechActivityMs := now
      lockFillersUntilSpeech := false
      awaitingResponseUntilMs := none
      speechActivityAtFillerMs := none }
  else
    s

/-- The trailing part of the `fillerTimer` interval callback
(`src/main.ts` lines 461-477): the idle-state filler dispatch with its four
guards. -/
def idleTick (now : Nat) (s : AppState) : AppState × List Out :=
  if now - s.lastSpeechActivityMs < FILLER_PAUSE_MS then (s, [])
  else if s.isSpeakingFiller = true then (s, [])
  else if now - s.lastFillerTime < FILLER_COOLDOWN_MS then (s, [])
  else if s.transcriptBuffer.length = 0 then (s, [])
  else
    ({ s with
        lastFillerTime := now
        sentencesSinceLastFiller := 0
        awaitingResponseUntilMs := some (now + RESPONSE_WAIT_MS)
        speechActivityAtFillerMs := some s.lastSpeechActivityMs },
     [Out.fillerReq (String.intercalate " " (sliceLast 6 s.transcriptBuffer)) now])

/-- The whole `fillerTimer` interval callback (`src/main.ts` lines 431-477),
for a tick taken while recording: lock check, awaiting-response branch
(both fields non-null), then the idle filler branch. -/
def fillerTick (now : Nat) (s : AppState) : AppState × List Out :=
  if s.lockFillersUntilSpeech = true then (s, [])
  else
    match s.awaitingResponseUntilMs, s.speechActivityAtFillerMs with
    | some deadline, some speechAtFiller =>
      if deadline ≤ now then
        if ¬(speechAtFiller < s.lastSpeechActivityMs) ∧ s.isSpeakingFiller = false then
          ({ s with
              lockFillersUntilSpeech := true
              lastFillerTime := now
              awaitingResponseUntilMs := none
              speechActivityAtFillerMs := none },
           [Out.followupReq (String.intercalate " " (sliceLast 6 s.transcriptBuffer)) now])
        else
          ({ s with
              awaitingResponseUntilMs := none
              speechActivityAtFillerMs := none }, [])
      else
        (s, [])
    | _, _ => idleTick now s

/-- The within-interview events that drive the controller state: recognition
results (carrying the raw concatenated transcript text of
`recognition.onresult`), poll ticks, worker replies, and the acquisition /
release of the TTS speaking flag by `speakFiller`. -/
inductive Event where
  | interimResult (text : String) (now : Nat)
  | finalResult (text : String) (now : Nat)
  | tick (now : Nat)
  | summaryMsg (now : Nat)
  | errorMsg (now : Nat)
  | speakStart (now : Nat)
  | speakEnd (now : Nat)
  deriving Repr, DecidableEq

/-- The wall-clock time at which an event is handled. -/
def Event.time : Event → Nat
  | .interimResult _ n => n
  | .finalResult _ n => n
  | .tick n => n
  | .summaryMsg n => n
  | .errorMsg n => n
  | .speakStart n => n
  | .speakEnd n => n

/-- One main-thread event handled against the module state.  Interim results
follow `if (interim) setInterimTranscript(interim.trim())`, final results
follow `if (finalized.trim()) appendFinalTranscript(finalized.trim())`
(`recognition.onresult`, `src/main.ts` lines 360-386); ticks run the interval
callback; `summary` and `error` worker messages clear `summaryInFlight`
(`summaryWorker.onmessage`, lines 223-246). -/
def step (s : AppState) : Event → AppState × List Out
  | .interimResult text now =>
    (if text ≠ "" then setInterimTranscript (jsTrim text) now s else s, [])
  | .finalResult text now =>
    if jsTrim text ≠ "" then appendFinalTranscript (jsTrim text) now s else (s, [])
  | .tick now => fillerTick now s
  | .summaryMsg _ => ({ s with summaryInFlight := false }, [])
  | .errorMsg _ => ({ s with summaryInFlight := false }, [])
  | .speakStart _ => ({ s with isSpeakingFiller := true }, [])
  | .speakEnd _ => ({ s with isSpeakingFiller := false }, [])

/-- Run a sequence of events, collecting all worker dispatches in order. -/
def run (s : AppState) : List Event → AppState × List Out
  | [] => (s, [])
  | e :: es =>
    ((run (step s e).1 es).1, (step s e).2 ++ (run (step s e).1 es).2)

/-- The state produced by the start branch of the `micToggle` click handler
(`src/main.ts` lines 414-431): buffers cleared, every timestamp (including
the cooldown stamp `lastFillerTime`) set to the start time, prompt-cycle
state cleared.  `summaryWorkerReady` persists across interviews;
`isSpeakingFiller` is module state initialised to `false`. -/
def startState (t0 : Nat) (ready : Bool) : AppState :=
  { transcriptBuffer := []
    lastFillerTime := t0
    sentencesSinceLastFiller := 0
    lastFinalTranscriptMs := t0
    lastInterimTranscriptMs := t0
    isSpeakingFiller := false
    lastSpeechActivityMs := t0
    summaryWorkerReady := ready
    summaryInFlight := false
    awaitingResponseUntilMs := none
    speechActivityAtFillerMs := none
    lockFillersUntilSpeech := false }

/-- The final-summarization dispatch of the stop branch of the `micToggle`
click handler (`src/main.ts` lines 492-499). -/
def stopFinalSummarize (s : AppState) : List Out :=
  if 0 < s.transcriptBuffer.length ∧ s.summaryWorkerReady = true then
    [Out.summarizeReq (String.intercalate " " s.transcriptBuffer)]
  else
    []

/-- The issuance timestamps of the prompt dispatches in an output list, in
order, each tagged with whether it is a follow-up (`true`) or a filler
(`false`). -/
def promptTimes : List Out → List (Nat × Bool)
  | [] => []
  | Out.summarizeReq _ :: rest => promptTimes rest
  | Out.fillerReq _ t :: rest => (t, false) :: promptTimes rest
  | Out.followupReq _ t :: rest => (t, true) :: promptTimes rest

/-- Pairwise gap discipline of a prompt sequence, threaded from an initial
reference time: each filler is issued at least `FILLER_COOLDOWN_MS` after the
previous dispatch (or the reference time), each follow-up at least
`RESPONSE_WAIT_MS` after the previous dispatch. -/
def gapOK (last : Nat) : List (Nat × Bool) → Bool
  | [] => true
  | (t, fu) :: rest =>
    decide ((if fu then last + RESPONSE_WAIT_MS else last + FILLER_COOLDOWN_MS) ≤ t) &&
      gapOK t rest

/-- `USE_NEURAL_SUMMARY` from `src/workers/summaryWorker.ts`. -/
def USE_NEURAL_SUMMARY : Bool := true

/-- Replies the summary worker posts back for a `summarize` request
(`self.postMessage` calls of `src/workers/summaryWorker.ts`). -/
inductive WorkerReply where
  | summary (text : String)
  | error (msg : String)
  deriving Repr, DecidableEq

/-- The `summarize` branch of `self.onmessage` in
`src/workers/summaryWorker.ts` (lines 173-233).  The two summarization
strategies are external collaborators and are abstracted as oracles:
`bullet` stands for `bulletSummarize`, and `neural` stands for the
`await summarizer(cleanedText, ...)` invocation together with its input
cleaning.  `loaded` is whether `summarizer` is non-null.  The second
component records whether the neural summarizer was invoked. -/
def handleSummarize (loaded : Bool) (bullet neural : String → String)
    (text : String) : WorkerReply × Bool :=
  if text = "" ∨ (jsTrim text).length < 50 then
    (WorkerReply.summary "Not enough content yet.", false)
  else if USE_NEURAL_SUMMARY = false then
    (WorkerReply.summary (bullet text), false)
  else if loaded = false then
    (WorkerReply.error "Summarizer not initialized", false)
  else
    (WorkerReply.summary (neural text), true)

/-- The observable behaviour of one `speakFiller(phrase)` call
(`src/main.ts` lines 174-189), with the asynchronous playback flattened:
the flag values while `speakTts` plays, the flag values after the
`finally` block, and whether recognition was stopped and restarted.
`playbackOk` is the text-to-speech collaborator's outcome (its promise
resolves on both `onend` and `onerror`). -/
structure SpeakOutcome where
  played : Bool
  speakingDuringPlayback : Bool
  suspendDuringPlayback : Bool
  stoppedRecognition : Bool
  speakingAfter : Bool
  suspendAfter : Bool
  restartedRecognition : Bool
  deriving Repr, DecidableEq

/-- The outcome of the two early-return branches of `speakFiller`: every
flag keeps its current value and nothing is played. -/
def speakNoop (speaking0 suspend0 : Bool) : SpeakOutcome :=
  { played := false
    speakingDuringPlayback := speaking0
    suspendDuringPlayback := suspend0
    stoppedRecognition := false
    speakingAfter := speaking0
    suspendAfter := suspend0
    restartedRecognition := false }

/-- `speakFiller` of `src/main.ts`: early return on `isSpeakingFiller` or a
whitespace-only phrase; otherwise set the speaking flag, suspend
auto-restart, stop recognition, play, and in the `finally` block clear both
flags and call `startRecognition()` exactly when `isRecording` still
holds. -/
def speakFiller (phrase : String) (speaking0 suspend0 isRecording playbackOk : Bool) :
    SpeakOutcome :=
  if speaking0 = true then speakNoop speaking0 suspend0
  else if jsTrim phrase = "" then speakNoop speaking0 suspend0
  else
    { played := true
      speakingDuringPlayback := true
      suspendDuringPlayback := true
      stoppedRecognition := true
      speakingAfter := false
      suspendAfter := false
      restartedRecognition := isRecording }

theorem promptTimes_append (a b : List Out) :
    promptTimes (a ++ b) = promptTimes a ++ promptTimes b := by
  induction a with
  | nil => rfl
  | cons o rest ih => cases o <;> simp [promptTimes, ih]

/-- Reachability invariant tying the prompt-cycle state to the cooldown
stamp: the stamp never precedes the reference time, the two awaiting fields
are set together, and an armed deadline is exactly the issuing filler's
timestamp plus `RESPONSE_WAIT_MS` (that filler itself having been issued at
least `FILLER_COOLDOWN_MS` after the reference time). -/
def StInv (t0 : Nat) (s : AppState) : Prop :=
  t0 ≤ s.lastFillerTime ∧
  s.awaitingResponseUntilMs.isSome = s.speechActivityAtFillerMs.isSome ∧
  ∀ d, s.awaitingResponseUntilMs = some d →
    d = s.lastFillerTime + RESPONSE_WAIT_MS ∧
    t0 + FILLER_COOLDOWN_MS + RESPONSE_WAIT_MS ≤ d

theorem step_gap (t0 : Nat) (s : AppState) (e : Event)
    (hInv : StInv t0 s) (ht : s.lastFillerTime ≤ e.time) :
    StInv t0 (step s e).1 ∧ (step s e).1.lastFillerTime ≤ e.time ∧
    (promptTimes (step s e).2 = [] ∧ (step s e).1.lastFillerTime = s.lastFillerTime ∨
     ∃ fu, promptTimes (step s e).2 = [(e.time, fu)] ∧
       (step s e).1.lastFillerTime = e.time ∧
       t0 + FILLER_COOLDOWN_MS ≤ e.time ∧
       (fu = true → s.lastFillerTime + RESPONSE_WAIT_MS ≤ e.time) ∧
       (fu = false → s.lastFillerTime + FILLER_COOLDOWN_MS ≤ e.time)) := by
  obtain ⟨hLB, hIff, hAw⟩ := hInv
  cases e with
  | interimResult text now =>
    simp only [step, Event.time] at ht ⊢
    by_cases h : text ≠ ""
    · simp only [if_pos h]
      unfold setInterimTranscript
      by_cases h2 : jsTrim text ≠ ""
      · simp only [if_pos h2]
        exact ⟨⟨hLB, rfl, by simp⟩, ht, Or.inl ⟨by simp [promptTimes], by simp⟩⟩
      · simp only [if_neg h2]
        exact ⟨⟨hLB, hIff, hAw⟩, ht, Or.inl ⟨by simp [promptTimes], by simp⟩⟩
    · simp only [if_neg h]
      exact ⟨⟨hLB, hIff, hAw⟩, ht, Or.inl ⟨by simp [promptTimes], by simp⟩⟩
  | finalResult text now =>
    simp only [step, Event.time] at ht ⊢
    by_cases h : jsTrim text ≠ ""
    · simp only [if_pos h]
      unfold appendFinalTranscript
      by_cases h2 : SUMMARY_TRIGGER_SENTENCES ≤ (pushTrim s.transcriptBuffer (jsTrim text)).length ∧
          s.summaryWorkerReady = true ∧ s.summaryInFlight = false
      · simp only [if_pos h2]
        exact ⟨⟨hLB, rfl, by simp⟩, ht, Or.inl ⟨by simp [promptTimes], by simp⟩⟩
      · simp only [if_neg h2]
        exact ⟨⟨hLB, rfl, by simp⟩, ht, Or.inl ⟨by simp [promptTimes], by simp⟩⟩
    · simp only [if_neg h]
      exact ⟨⟨hLB, hIff, hAw⟩, ht, Or.inl ⟨by simp [promptTimes], by simp⟩⟩
  | tick now =>
    simp only [step, Event.time] at ht ⊢
    unfold fillerTick
    by_cases hlock : s.lockFillersUntilSpeech = true
    · simp only [if_pos hlock]
      exact ⟨⟨hLB, hIff, hAw⟩, ht, Or.inl ⟨by simp [promptTimes], by simp⟩⟩
    · simp only [if_neg hlock]
      rcases haw : s.awaitingResponseUntilMs with _ | d
      · rcases hsp : s.speechActivityAtFillerMs with _ | sa
        · simp only [haw, hsp]
          unfold idleTick
          by_cases g1 : now - s.lastSpeechActivityMs < FILLER_PAUSE_MS
          · simp only [if_pos g1]
            exact ⟨⟨hLB, hIff, hAw⟩, ht, Or.inl ⟨by simp [promptTimes], by simp⟩⟩
          · simp only [if_neg g1]
            by_cases g2 : s.isSpeakingFiller = true
            · simp only [if_pos g2]
              exact ⟨⟨hLB, hIff, hAw⟩, ht, Or.inl ⟨by simp [promptTimes], by simp⟩⟩
            · simp only [if_neg g2]
              by_cases g3 : now - s.lastFillerTime < FILLER_COOLDOWN_MS
              · simp only [if_pos g3]
                exact ⟨⟨hLB, hIff, hAw⟩, ht, Or.inl ⟨by simp [promptTimes], by simp⟩⟩
              · simp only [if_neg g3]
                by_cases g4 : s.transcriptBuffer.length = 0
                · simp only [if_pos g4]
                  exact ⟨⟨hLB, hIff, hAw⟩, ht, Or.inl ⟨by simp [promptTimes], by simp⟩⟩
                · simp only [if_neg g4]
                  have hcool : s.lastFillerTime + FILLER_COOLDOWN_MS ≤ now := by omega
                  refine ⟨⟨show t0 ≤ now by omega, by simp, ?_⟩, le_refl now,
                    Or.inr ⟨false, by simp [promptTimes], by simp, show t0 + FILLER_COOLDOWN_MS ≤ now by omega,
                      by intro hc; simp at hc, fun _ => hcool⟩⟩
                  intro d hd
                  have hd2 : d = now + RESPONSE_WAIT_MS := by
                    have : some (now + RESPONSE_WAIT_MS) = some d := hd
                    injection this with h3
                    omega
                  show d = now + RESPONSE_WAIT_MS ∧ t0 + FILLER_COOLDOWN_MS + RESPONSE_WAIT_MS ≤ d
                  omega
        · exfalso
          rw [haw, hsp] at hIff
          simp at hIff
      · rcases hsp : s.speechActivityAtFillerMs with _ | sa
        · exfalso
          rw [haw, hsp] at hIff
          simp at hIff
        · simp only [haw, hsp]
          obtain ⟨hd1, hd2⟩ := hAw d haw
          by_cases g1 : d ≤ now
          · simp only [if_pos g1]
            by_cases g2 : ¬(sa < s.lastSpeechActivityMs) ∧ s.isSpeakingFiller = false
            · simp only [if_pos g2]
              refine ⟨⟨show t0 ≤ now by omega, by simp, by intro d2 hd2x; simp at hd2x⟩,
                le_refl now,
                Or.inr ⟨true, by simp [promptTimes], by simp,
                  show t0 + FILLER_COOLDOWN_MS ≤ now by omega,
                  fun _ => show s.lastFillerTime + RESPONSE_WAIT_MS ≤ now by omega,
                  by intro hc; simp at hc⟩⟩
            · simp only [if_neg g2]
              exact ⟨⟨hLB, rfl, by intro d2 hd2x; simp at hd2x⟩, ht,
                Or.inl ⟨by simp [promptTimes], by simp⟩⟩
          · simp only [if_neg g1]
            exact ⟨⟨hLB, hIff, hAw⟩, ht, Or.inl ⟨by simp [promptTimes], by simp⟩⟩
  | summaryMsg now =>
    exact ⟨⟨hLB, hIff, hAw⟩, ht, Or.inl ⟨by simp [step, promptTimes], by simp [step]⟩⟩
  | errorMsg now =>
    exact ⟨⟨hLB, hIff, hAw⟩, ht, Or.inl ⟨by simp [step, promptTimes], by simp [step]⟩⟩
  | speakStart now =>
    exact ⟨⟨hLB, hIff, hAw⟩, ht, Or.inl ⟨by simp [step, promptTimes], by simp [step]⟩⟩
  | speakEnd now =>
    exact ⟨⟨hLB, hIff, hAw⟩, ht, Or.inl ⟨by simp [step, promptTimes], by simp [step]⟩⟩

theorem run_gap (t0 : Nat) : ∀ (es : List Event) (s : AppState),
    StInv t0 s →
    (∀ e ∈ es, s.lastFillerTime ≤ e.time) →
    es.Pairwise (fun a b => a.time ≤ b.time) →
    gapOK s.lastFillerTime (promptTimes (run s es).2) = true ∧
    ∀ p ∈ promptTimes (run s es).2, t0 + FILLER_COOLDOWN_MS ≤ p.1
  | [], s, _, _, _ => by simp [run, promptTimes, gapOK]
  | e :: es, s, hInv, hlb, hmono => by
    rw [List.pairwise_cons] at hmono
    obtain ⟨hhead, htail⟩ := hmono
    have ht : s.lastFillerTime ≤ e.time := hlb e (List.mem_cons_self e es)
    obtain ⟨hInv1, hle1, hdisp⟩ := step_gap t0 s e hInv ht
    rcases hdisp with ⟨hpt, hlft⟩ | ⟨fu, hpt, hlft, hcool, hfu, hfi⟩
    · have hlb1 : ∀ e2 ∈ es, (step s e).1.lastFillerTime ≤ e2.time := by
        intro e2 he2
        rw [hlft]
        exact hlb e2 (List.mem_cons_of_mem e he2)
      obtain ⟨hgap, hall⟩ := run_gap t0 es (step s e).1 hInv1 hlb1 htail
      rw [hlft] at hgap
      simp only [run, promptTimes_append, hpt, List.nil_append]
      exact ⟨hgap, hall⟩
    · have hlb1 : ∀ e2 ∈ es, (step s e).1.lastFillerTime ≤ e2.time := by
        intro e2 he2
        rw [hlft]
        exact hhead e2 he2
      obtain ⟨hgap, hall⟩ := run_gap t0 es (step s e).1 hInv1 hlb1 htail
      rw [hlft] at hgap
      simp only [run, promptTimes_append, hpt, List.cons_append, List.nil_append]
      constructor
      · simp only [gapOK, Bool.and_eq_true, decide_eq_true_eq]
        refine ⟨?_, hgap⟩
        cases fu
        · simpa using hfi rfl
        · simpa using hfu rfl
      · intro p hp
        rcases List.mem_cons.mp hp with hp | hp
        · rw [hp]
          exact hcool
        · exact hall p hp

/-- C1 counterexample: in the run that starts at time 0, hears one final
utterance at 0, and then ticks at 8000 and 14000, a filler is dispatched at
8000 and the follow-up of its own cycle at 14000 — a gap of 6000ms, less
than `FILLER_COOLDOWN_MS`.  The follow-up branch of the interval callback
stamps `lastFillerTime` but never checks the cooldown. -/
theorem followup_within_cooldown_cex :
    promptTimes (run (startState 0 false)
      [Event.finalResult "hello world" 0, Event.tick 8000, Event.tick 14000]).2 =
      [(8000, false), (14000, true)] ∧
    ¬ 8000 + FILLER_COOLDOWN_MS ≤ 14000 := by decide

/-- C1 (amended): for every run of the flow controller with monotone event
timestamps, consecutive dispatched prompts obey `gapOK`: a *filler* is
issued at least `FILLER_COOLDOWN_MS` after the previous dispatch (or the
interview start), but a *follow-up* — always the successor of its own
cycle's filler — is only guaranteed `RESPONSE_WAIT_MS` (6000ms) after it. -/
theorem prompt_gap_discipline (t0 : Nat) (ready : Bool) (es : List Event)
    (hlb : ∀ e ∈ es, t0 ≤ e.time)
    (hmono : es.Pairwise fun a b => a.time ≤ b.time) :
    gapOK t0 (promptTimes (run (startState t0 ready) es).2) = true := by
  have hInv : StInv t0 (startState t0 ready) :=
    ⟨le_refl t0, rfl, by intro d hd; simp [startState] at hd⟩
  exact (run_gap t0 es (startState t0 ready) hInv hlb hmono).1

theorem prompt_gap_discipline_witness :
    gapOK 0 (promptTimes (run (startState 0 true)
      [Event.finalResult "hi there" 0, Event.tick 9000]).2) = true :=
  prompt_gap_discipline 0 true [Event.finalResult "hi there" 0, Event.tick 9000]
    (by decide) (by decide)

/-- C10: starting an interview at `t0` stamps `lastFillerTime := t0`, so in
every run with monotone timestamps no filler or follow-up prompt is ever
dispatched earlier than `t0 + FILLER_COOLDOWN_MS`, speech or no speech. -/
theorem no_prompt_before_initial_cooldown (t0 : Nat) (ready : Bool) (es : List Event)
    (hlb : ∀ e ∈ es, t0 ≤ e.time)
    (hmono : es.Pairwise fun a b => a.time ≤ b.time) :
    ∀ p ∈ promptTimes (run (startState t0 ready) es).2, t0 + FILLER_COOLDOWN_MS ≤ p.1 := by
  have hInv : StInv t0 (startState t0 ready) :=
    ⟨le_refl t0, rfl, by intro d hd; simp [startState] at hd⟩
  exact (run_gap t0 es (startState t0 ready) hInv hlb hmono).2

theorem no_prompt_before_initial_cooldown_witness :
    0 + FILLER_COOLDOWN_MS ≤ 9000 :=
  no_prompt_before_initial_cooldown 0 true [Event.finalResult "hi there" 0, Event.tick 9000]
    (by decide) (by decide) (9000, false) (by decide)

/-- C2: on a poll tick taken in the idle state, a filler prompt (with the
last 6 buffered segments as context) is dispatched if and only if the pause
threshold, the no-prompt-speaking guard, the cooldown, and the non-empty
buffer all hold; when they do, `lastFillerTime` becomes `now` and the state
becomes awaiting-response with deadline `now + RESPONSE_WAIT_MS` and
recorded speech activity `lastSpeechActivityMs`. -/
theorem idle_tick_filler_characterization (s : AppState) (now : Nat)
    (hlock : s.lockFillersUntilSpeech = false)
    (haw : s.awaitingResponseUntilMs = none)
    (hsp : s.speechActivityAtFillerMs = none) :
    ((step s (Event.tick now)).2 ≠ [] ↔
      (s.lastSpeechActivityMs + FILLER_PAUSE_MS ≤ now ∧ s.isSpeakingFiller = false ∧
       s.lastFillerTime + FILLER_COOLDOWN_MS ≤ now ∧ s.transcriptBuffer ≠ [])) ∧
    (s.lastSpeechActivityMs + FILLER_PAUSE_MS ≤ now → s.isSpeakingFiller = false →
     s.lastFillerTime + FILLER_COOLDOWN_MS ≤ now → s.transcriptBuffer ≠ [] →
      step s (Event.tick now) =
        ({ s with
            lastFillerTime := now
            sentencesSinceLastFiller := 0
            awaitingResponseUntilMs := some (now + RESPONSE_WAIT_MS)
            speechActivityAtFillerMs := some s.lastSpeechActivityMs },
         [Out.fillerReq (String.intercalate " " (sliceLast 6 s.transcriptBuffer)) now])) := by
  have key : step s (Event.tick now) = idleTick now s := by
    simp only [step, fillerTick, hlock, haw, hsp]
    rfl
  rw [key]
  unfold idleTick FILLER_PAUSE_MS FILLER_COOLDOWN_MS
  by_cases g1 : now - s.lastSpeechActivityMs < 3500
  · rw [if_pos g1]
    exact ⟨⟨fun h => absurd rfl h, fun h => absurd h.1 (by omega)⟩,
      fun c1 _ _ _ => absurd c1 (by omega)⟩
  · rw [if_neg g1]
    by_cases g2 : s.isSpeakingFiller = true
    · rw [if_pos g2]
      refine ⟨⟨fun h => absurd rfl h, fun h => ?_⟩, fun _ c2 _ _ => ?_⟩
      · rw [h.2.1] at g2
        cases g2
      · rw [c2] at g2
        cases g2
    · rw [if_neg g2]
      by_cases g3 : now - s.lastFillerTime < 8000
      · rw [if_pos g3]
        exact ⟨⟨fun h => absurd rfl h, fun h => absurd h.2.2.1 (by omega)⟩,
          fun _ _ c3 _ => absurd c3 (by omega)⟩
      · rw [if_neg g3]
        by_cases g4 : s.transcriptBuffer.length = 0
        · rw [if_pos g4]
          refine ⟨⟨fun h => absurd rfl h, fun h => ?_⟩, fun _ _ _ c4 => ?_⟩
          · exact absurd (List.length_eq_zero.mp g4) h.2.2.2
          · exact absurd (List.length_eq_zero.mp g4) c4
        · rw [if_neg g4]
          refine ⟨⟨fun _ => ⟨by omega, ?_, by omega, ?_⟩, fun _ => by simp⟩,
            fun _ _ _ _ => rfl⟩
          · revert g2
            cases s.isSpeakingFiller <;> simp
          · intro hnil
            exact g4 (by rw [hnil]; rfl)

theorem idle_tick_filler_characterization_witness :
    step { startState 0 true with transcriptBuffer := ["hi there"] } (Event.tick 9000) =
      ({ transcriptBuffer := ["hi there"], lastFillerTime := 9000,
         sentencesSinceLastFiller := 0, lastFinalTranscriptMs := 0,
         lastInterimTranscriptMs := 0, isSpeakingFiller := false,
         lastSpeechActivityMs := 0, summaryWorkerReady := true, summaryInFlight := false,
         awaitingResponseUntilMs := some 15000, speechActivityAtFillerMs := some 0,
         lockFillersUntilSpeech := false },
       [Out.fillerReq "hi there" 9000]) :=
  (idle_tick_filler_characterization
    { startState 0 true with transcriptBuffer := ["hi there"] } 9000
    (by decide) (by decide) (by decide)).2 (by decide) (by decide) (by decide) (by decide)

/-- C3: on a poll tick taken in the awaiting-response state: before the
deadline nothing happens; once the deadline is reached the awaiting state is
always cleared; if the candidate spoke since the filler was issued the cycle
resolves with no follow-up; if not, and no prompt is being spoken, a
follow-up is dispatched, the lock is set, and `lastFillerTime := now`. -/
theorem awaiting_tick_characterization (s : AppState) (now d sa : Nat)
    (hlock : s.lockFillersUntilSpeech = false)
    (haw : s.awaitingResponseUntilMs = some d)
    (hsp : s.speechActivityAtFillerMs = some sa) :
    (now < d → step s (Event.tick now) = (s, [])) ∧
    (d ≤ now → (step s (Event.tick now)).1.awaitingResponseUntilMs = none ∧
      (step s (Event.tick now)).1.speechActivityAtFillerMs = none) ∧
    (d ≤ now → sa < s.lastSpeechActivityMs →
      step s (Event.tick now) =
        ({ s with awaitingResponseUntilMs := none, speechActivityAtFillerMs := none }, [])) ∧
    (d ≤ now → ¬ sa < s.lastSpeechActivityMs → s.isSpeakingFiller = false →
      step s (Event.tick now) =
        ({ s with
            lockFillersUntilSpeech := true
            lastFillerTime := now
            awaitingResponseUntilMs := none
            speechActivityAtFillerMs := none },
         [Out.followupReq (String.intercalate " " (sliceLast 6 s.transcriptBuffer)) now])) := by
  have key : step s (Event.tick now) =
      (if d ≤ now then
        if ¬ sa < s.lastSpeechActivityMs ∧ s.isSpeakingFiller = false then
          ({ s with
              lockFillersUntilSpeech := true
              lastFillerTime := now
              awaitingResponseUntilMs := none
              speechActivityAtFillerMs := none },
           [Out.followupReq (String.intercalate " " (sliceLast 6 s.transcriptBuffer)) now])
        else
          ({ s with
              awaitingResponseUntilMs := none
              speechActivityAtFillerMs := none }, [])
      else (s, [])) := by
    simp only [step, fillerTick, hlock, haw, hsp]
    rfl
  rw [key]
  refine ⟨fun h => ?_, fun h => ?_, fun h hspoke => ?_, fun h hns hnsp => ?_⟩
  · rw [if_neg (by omega)]
  · rw [if_pos h]
    by_cases g : ¬ sa < s.lastSpeechActivityMs ∧ s.isSpeakingFiller = false
    · rw [if_pos g]
      exact ⟨rfl, rfl⟩
    · rw [if_neg g]
      exact ⟨rfl, rfl⟩
  · rw [if_pos h, if_neg (by intro g; exact g.1 hspoke)]
  · rw [if_pos h, if_pos ⟨hns, hnsp⟩]

theorem awaiting_tick_characterization_witness :
    step { startState 0 true with
            transcriptBuffer := ["hi there"]
            awaitingResponseUntilMs := some 14000
            speechActivityAtFillerMs := some 0 } (Event.tick 14000) =
      ({ transcriptBuffer := ["hi there"], lastFillerTime := 14000,
         sentencesSinceLastFiller := 0, lastFinalTranscriptMs := 0,
         lastInterimTranscriptMs := 0, isSpeakingFiller := false,
         lastSpeechActivityMs := 0, summaryWorkerReady := true, summaryInFlight := false,
         awaitingResponseUntilMs := none, speechActivityAtFillerMs := none,
         lockFillersUntilSpeech := true },
       [Out.followupReq "hi there" 14000]) :=
  (awaiting_tick_characterization
    { startState 0 true with
        transcriptBuffer := ["hi there"]
        awaitingResponseUntilMs := some 14000
        speechActivityAtFillerMs := some 0 } 14000 14000 0
    (by decide) (by decide) (by decide)).2.2.2 (by decide) (by decide) (by decide)

/-- C4 counterexample: a run that triggers a summarization on the third
segment, receives the summary, and then finalizes a *single* further segment
immediately sends a second request — only one segment after the last
accepted trigger, not `SUMMARY_TRIGGER_SENTENCES`.  The code gates on the
total buffer length, not on a count since the last accepted trigger. -/
theorem summary_trigger_count_cex :
    (run (startState 0 true)
      [Event.finalResult "seg one" 0, Event.finalResult "seg two" 100,
       Event.finalResult "seg three" 200, Event.summaryMsg 300,
       Event.finalResult "seg four" 400]).2 =
      [Out.summarizeReq "seg one seg two seg three",
       Out.summarizeReq "seg one seg two seg three seg four"] := by decide

/-- C4 (amended): a finalized segment triggers a summarization request iff
the *whole* trimmed buffer holds at least `SUMMARY_TRIGGER_SENTENCES`
segments, the worker is ready, and no request is in flight (there is no
count-since-last-trigger); the request text is the most recent
`SUMMARY_SENTENCES_WINDOW` buffered segments joined with single spaces, and
a dispatch raises the in-flight flag. -/
theorem summarize_dispatch_characterization (s : AppState) (text : String) (now : Nat) :
    ((appendFinalTranscript text now s).2 ≠ [] ↔
      (SUMMARY_TRIGGER_SENTENCES ≤ (pushTrim s.transcriptBuffer text).length ∧
       s.summaryWorkerReady = true ∧ s.summaryInFlight = false)) ∧
    ((appendFinalTranscript text now s).2 ≠ [] →
      (appendFinalTranscript text now s).2 =
        [Out.summarizeReq (String.intercalate " "
          (sliceLast SUMMARY_SENTENCES_WINDOW (pushTrim s.transcriptBuffer text)))] ∧
      (appendFinalTranscript text now s).1.summaryInFlight = true) := by
  simp only [appendFinalTranscript]
  by_cases h : SUMMARY_TRIGGER_SENTENCES ≤ (pushTrim s.transcriptBuffer text).length ∧
      s.summaryWorkerReady = true ∧ s.summaryInFlight = false
  · rw [if_pos h]
    exact ⟨⟨fun _ => h, fun _ => by simp⟩, fun _ => ⟨rfl, rfl⟩⟩
  · rw [if_neg h]
    exact ⟨⟨fun hne => absurd rfl hne, fun hc => absurd hc h⟩, fun hne => absurd rfl hne⟩

theorem summarize_dispatch_characterization_witness :
    (appendFinalTranscript "seg three" 200
      { startState 0 true with transcriptBuffer := ["seg one", "seg two"] }).2 =
      [Out.summarizeReq "seg one seg two seg three"] ∧
    (appendFinalTranscript "seg three" 200
      { startState 0 true with transcriptBuffer := ["seg one", "seg two"] }).1.summaryInFlight = true :=
  (summarize_dispatch_characterization
    { startState 0 true with transcriptBuffer := ["seg one", "seg two"] } "seg three" 200).2
    (by decide)

/-- Activity-tracker invariant of reachable states: `lastSpeechActivityMs`
is the maximum of the final and interim stamps, and the awaiting-response
and locked-until-speech flags never hold together. -/
def ActInv (s : AppState) : Prop :=
  s.lastSpeechActivityMs = max s.lastFinalTranscriptMs s.lastInterimTranscriptMs ∧
  ¬(s.awaitingResponseUntilMs.isSome = true ∧ s.lockFillersUntilSpeech = true)

theorem step_act (s : AppState) (e : Event)
    (hInv : ActInv s)
    (ht1 : s.lastFinalTranscriptMs ≤ e.time)
    (ht2 : s.lastInterimTranscriptMs ≤ e.time) :
    ActInv (step s e).1 ∧
    (step s e).1.lastFinalTranscriptMs ≤ e.time ∧
    (step s e).1.lastInterimTranscriptMs ≤ e.time := by
  obtain ⟨hmax, hmutex⟩ := hInv
  cases e with
  | interimResult text now =>
    simp only [step, Event.time] at ht1 ht2 ⊢
    by_cases h : text ≠ ""
    · simp only [if_pos h]
      unfold setInterimTranscript
      by_cases h2 : jsTrim text ≠ ""
      · simp only [if_pos h2]
        refine ⟨⟨?_, by simp⟩, ht1, le_refl now⟩
        show now = max s.lastFinalTranscriptMs now
        omega
      · simp only [if_neg h2]
        exact ⟨⟨hmax, hmutex⟩, ht1, ht2⟩
    · simp only [if_neg h]
      exact ⟨⟨hmax, hmutex⟩, ht1, ht2⟩
  | finalResult text now =>
    simp only [step, Event.time] at ht1 ht2 ⊢
    by_cases h : jsTrim text ≠ ""
    · simp only [if_pos h]
      unfold appendFinalTranscript
      by_cases h2 : SUMMARY_TRIGGER_SENTENCES ≤ (pushTrim s.transcriptBuffer (jsTrim text)).length ∧
          s.summaryWorkerReady = true ∧ s.summaryInFlight = false
      · simp only [if_pos h2]
        refine ⟨⟨?_, by simp⟩, le_refl now, ht2⟩
        show now = max now s.lastInterimTranscriptMs
        omega
      · simp only [if_neg h2]
        refine ⟨⟨?_, by simp⟩, le_refl now, ht2⟩
        show now = max now s.lastInterimTranscriptMs
        omega
    · simp only [if_neg h]
      exact ⟨⟨hmax, hmutex⟩, ht1, ht2⟩
  | tick now =>
    simp only [step, Event.time] at ht1 ht2 ⊢
    unfold fillerTick
    by_cases hlock : s.lockFillersUntilSpeech = true
    · simp only [if_pos hlock]
      exact ⟨⟨hmax, hmutex⟩, ht1, ht2⟩
    · simp only [if_neg hlock]
      rcases haw : s.awaitingResponseUntilMs with _ | d
      · rcases hsp : s.speechActivityAtFillerMs with _ | sa
        · simp only [haw, hsp]
          unfold idleTick
          by_cases g1 : now - s.lastSpeechActivityMs < FILLER_PAUSE_MS
          · simp only [if_pos g1]
            exact ⟨⟨hmax, hmutex⟩, ht1, ht2⟩
          · simp only [if_neg g1]
            by_cases g2 : s.isSpeakingFiller = true
            · simp only [if_pos g2]
              exact ⟨⟨hmax, hmutex⟩, ht1, ht2⟩
            · simp only [if_neg g2]
              by_cases g3 : now - s.lastFillerTime < FILLER_COOLDOWN_MS
              · simp only [if_pos g3]
                exact ⟨⟨hmax, hmutex⟩, ht1, ht2⟩
              · simp only [if_neg g3]
                by_cases g4 : s.transcriptBuffer.length = 0
                · simp only [if_pos g4]
                  exact ⟨⟨hmax, hmutex⟩, ht1, ht2⟩
                · simp only [if_neg g4]
                  refine ⟨⟨hmax, ?_⟩, ht1, ht2⟩
                  intro hc
                  exact hlock hc.2
        · simp only [haw, hsp]
          unfold idleTick
          by_cases g1 : now - s.lastSpeechActivityMs < FILLER_PAUSE_MS
          · simp only [if_pos g1]
            exact ⟨⟨hmax, hmutex⟩, ht1, ht2⟩
          · simp only [if_neg g1]
            by_cases g2 : s.isSpeakingFiller = true
            · simp only [if_pos g2]
              exact ⟨⟨hmax, hmutex⟩, ht1, ht2⟩
            · simp only [if_neg g2]
              by_cases g3 : now - s.lastFillerTime < FILLER_COOLDOWN_MS
              · simp only [if_pos g3]
                exact ⟨⟨hmax, hmutex⟩, ht1, ht2⟩
              · simp only [if_neg g3]
                by_cases g4 : s.transcriptBuffer.length = 0
                · simp only [if_pos g4]
                  exact ⟨⟨hmax, hmutex⟩, ht1, ht2⟩
                · simp only [if_neg g4]
                  refine ⟨⟨hmax, ?_⟩, ht1, ht2⟩
                  intro hc
                  exact hlock hc.2
      · rcases hsp : s.speechActivityAtFillerMs with _ | sa
        · simp only [haw, hsp]
          unfold idleTick
          by_cases g1 : now - s.lastSpeechActivityMs < FILLER_PAUSE_MS
          · simp only [if_pos g1]
            exact ⟨⟨hmax, hmutex⟩, ht1, ht2⟩
          · simp only [if_neg g1]
            by_cases g2 : s.isSpeakingFiller = true
            · simp only [if_pos g2]
              exact ⟨⟨hmax, hmutex⟩, ht1, ht2⟩
            · simp only [if_neg g2]
              by_cases g3 : now - s.lastFillerTime < FILLER_COOLDOWN_MS
              · simp only [if_pos g3]
                exact ⟨⟨hmax, hmutex⟩, ht1, ht2⟩
              · simp only [if_neg g3]
                by_cases g4 : s.transcriptBuffer.length = 0
                · simp only [if_pos g4]
                  exact ⟨⟨hmax, hmutex⟩, ht1, ht2⟩
                · simp only [if_neg g4]
                  refine ⟨⟨hmax, ?_⟩, ht1, ht2⟩
                  intro hc
                  exact hlock hc.2
        · simp only [haw, hsp]
          by_cases g1 : d ≤ now
          · simp only [if_pos g1]
            by_cases g2 : ¬(sa < s.lastSpeechActivityMs) ∧ s.isSpeakingFiller = false
            · simp only [if_pos g2]
              exact ⟨⟨hmax, by simp⟩, ht1, ht2⟩
            · simp only [if_neg g2]
              exact ⟨⟨hmax, by simp⟩, ht1, ht2⟩
          · simp only [if_neg g1]
            exact ⟨⟨hmax, hmutex⟩, ht1, ht2⟩
  | summaryMsg now =>
    exact ⟨⟨hmax, hmutex⟩, ht1, ht2⟩
  | errorMsg now =>
    exact ⟨⟨hmax, hmutex⟩, ht1, ht2⟩
  | speakStart now =>
    exact ⟨⟨hmax, hmutex⟩, ht1, ht2⟩
  | speakEnd now =>
    exact ⟨⟨hmax, hmutex⟩, ht1, ht2⟩

theorem run_act : ∀ (es : List Event) (s : AppState),
    ActInv s →
    (∀ e ∈ es, s.lastFinalTranscriptMs ≤ e.time ∧ s.lastInterimTranscriptMs ≤ e.time) →
    es.Pairwise (fun a b => a.time ≤ b.time) →
    ActInv (run s es).1
  | [], s, hInv, _, _ => hInv
  | e :: es, s, hInv, hlb, hmono => by
    rw [List.pairwise_cons] at hmono
    obtain ⟨hhead, htail⟩ := hmono
    obtain ⟨ht1, ht2⟩ := hlb e (List.mem_cons_self e es)
    obtain ⟨hInv1, hb1, hb2⟩ := step_act s e hInv ht1 ht2
    have hlb1 : ∀ e2 ∈ es, (step s e).1.lastFinalTranscriptMs ≤ e2.time ∧
        (step s e).1.lastInterimTranscriptMs ≤ e2.time := by
      intro e2 he2
      have := hhead e2 he2
      exact ⟨le_trans hb1 this, le_trans hb2 this⟩
    exact run_act es (step s e).1 hInv1 hlb1 htail

/-- C5 counterexample: a whitespace-only interim recognition event (raw
transcript `" "`) is forwarded as `setInterimTranscript(" ".trim())`, whose
`if (text)` guard then fails, so nothing is updated: after a follow-up has
locked the controller at 14000, the interim event at 15000 leaves the lock
set and `lastSpeechActivityMs` at its old value instead of 15000. -/
theorem whitespace_interim_no_reset_cex :
    (run (startState 0 false)
      [Event.finalResult "hello world" 0, Event.tick 8000, Event.tick 14000,
       Event.interimResult " " 15000]).1.lockFillersUntilSpeech = true ∧
    (run (startState 0 false)
      [Event.finalResult "hello world" 0, Event.tick 8000, Event.tick 14000,
       Event.interimResult " " 15000]).1.lastSpeechActivityMs = 0 := by decide

/-- C5 (amended): every interim or final recognition event whose trimmed
text is non-empty unconditionally updates `lastSpeechActivityMs` and clears
both `awaitingResponseUntilMs` and `lockFillersUntilSpeech`
(whitespace-only events update nothing); and along every monotone run from
an interview start, `lastSpeechActivityMs = max lastFinal lastInterim` and
at most one of awaiting-response / locked-until-speech holds. -/
theorem speech_resets_flow_state :
    (∀ (s : AppState) (text : String) (now : Nat), jsTrim text ≠ "" →
      ((step s (Event.interimResult text now)).1.lastSpeechActivityMs = now ∧
       (step s (Event.interimResult text now)).1.awaitingResponseUntilMs = none ∧
       (step s (Event.interimResult text now)).1.lockFillersUntilSpeech = false) ∧
      ((step s (Event.finalResult text now)).1.lastSpeechActivityMs = now ∧
       (step s (Event.finalResult text now)).1.awaitingResponseUntilMs = none ∧
       (step s (Event.finalResult text now)).1.lockFillersUntilSpeech = false)) ∧
    (∀ (t0 : Nat) (ready : Bool) (es : List Event),
      (∀ e ∈ es, t0 ≤ e.time) →
      es.Pairwise (fun a b => a.time ≤ b.time) →
      ActInv (run (startState t0 ready) es).1) := by
  constructor
  · intro s text now hjt
    have htext : text ≠ "" := by
      intro h
      rw [h] at hjt
      exact hjt rfl
    constructor
    · simp only [step, if_pos htext]
      unfold setInterimTranscript
      rw [if_pos hjt]
      exact ⟨rfl, rfl, rfl⟩
    · simp only [step, if_pos hjt]
      unfold appendFinalTranscript
      by_cases h2 : SUMMARY_TRIGGER_SENTENCES ≤ (pushTrim s.transcriptBuffer (jsTrim text)).length ∧
          s.summaryWorkerReady = true ∧ s.summaryInFlight = false
      · rw [if_pos h2]
        exact ⟨rfl, rfl, rfl⟩
      · rw [if_neg h2]
        exact ⟨rfl, rfl, rfl⟩
  · intro t0 ready es hlb hmono
    have hInv : ActInv (startState t0 ready) := ⟨by simp [startState], by simp [startState]⟩
    exact run_act es (startState t0 ready) hInv
      (fun e he => ⟨hlb e he, hlb e he⟩) hmono

theorem speech_resets_flow_state_witness :
    ((step (startState 0 true) (Event.interimResult "hey now" 5)).1.lastSpeechActivityMs = 5 ∧
     (step (startState 0 true) (Event.interimResult "hey now" 5)).1.awaitingResponseUntilMs = none ∧
     (step (startState 0 true) (Event.interimResult "hey now" 5)).1.lockFillersUntilSpeech = false) ∧
    ActInv (run (startState 0 true) [Event.finalResult "hello" 3]).1 :=
  ⟨(speech_resets_flow_state.1 (startState 0 true) "hey now" 5 (by decide)).1,
   speech_resets_flow_state.2 0 true [Event.finalResult "hello" 3] (by decide) (by decide)⟩

theorem fillerTick_inFlight (now : Nat) (s : AppState) :
    (fillerTick now s).1.summaryInFlight = s.summaryInFlight ∧
    ∀ text, Out.summarizeReq text ∉ (fillerTick now s).2 := by
  unfold fillerTick
  split
  · simp
  · split
    · split
      · split
        · simp
        · simp
      · simp
    · unfold idleTick
      split
      · simp
      · split
        · simp
        · split
          · simp
          · split
            · simp
            · simp

/-- C6: while a summarization request is in flight, no within-interview
event dispatches another summarize request (the trigger is skipped, not
queued), and the in-flight flag can be cleared only by a `summary` or
`error` message from the worker. -/
theorem summary_in_flight_exclusive (s : AppState) (e : Event)
    (h : s.summaryInFlight = true) :
    (∀ text, Out.summarizeReq text ∉ (step s e).2) ∧
    ((step s e).1.summaryInFlight = false →
      (∃ n, e = Event.summaryMsg n) ∨ (∃ n, e = Event.errorMsg n)) := by
  cases e with
  | interimResult text now =>
    refine ⟨fun t => by simp [step], fun hf => ?_⟩
    exfalso
    simp only [step] at hf
    by_cases ht : text ≠ ""
    · rw [if_pos ht] at hf
      unfold setInterimTranscript at hf
      by_cases h2 : jsTrim text ≠ ""
      · rw [if_pos h2] at hf
        simp at hf
        rw [h] at hf
        cases hf
      · rw [if_neg h2] at hf
        rw [h] at hf
        cases hf
    · rw [if_neg ht] at hf
      rw [h] at hf
      cases hf
  | finalResult text now =>
    have hcond : ¬(SUMMARY_TRIGGER_SENTENCES ≤ (pushTrim s.transcriptBuffer (jsTrim text)).length ∧
        s.summaryWorkerReady = true ∧ s.summaryInFlight = false) := by
      intro hc
      rw [h] at hc
      cases hc.2.2
    constructor
    · intro t
      simp only [step]
      by_cases ht : jsTrim text ≠ ""
      · rw [if_pos ht]
        unfold appendFinalTranscript
        rw [if_neg hcond]
        simp
      · rw [if_neg ht]
        simp
    · intro hf
      exfalso
      simp only [step] at hf
      by_cases ht : jsTrim text ≠ ""
      · rw [if_pos ht] at hf
        unfold appendFinalTranscript at hf
        rw [if_neg hcond] at hf
        simp at hf
        rw [h] at hf
        cases hf
      · rw [if_neg ht] at hf
        rw [h] at hf
        cases hf
  | tick now =>
    refine ⟨fun t => ?_, fun hf => ?_⟩
    · exact (fillerTick_inFlight now s).2 t
    · exfalso
      have := (fillerTick_inFlight now s).1
      simp only [step] at hf
      rw [this, h] at hf
      cases hf
  | summaryMsg now =>
    exact ⟨fun t => by simp [step], fun _ => Or.inl ⟨now, rfl⟩⟩
  | errorMsg now =>
    exact ⟨fun t => by simp [step], fun _ => Or.inr ⟨now, rfl⟩⟩
  | speakStart now =>
    refine ⟨fun t => by simp [step], fun hf => ?_⟩
    exfalso
    simp only [step] at hf
    rw [h] at hf
    cases hf
  | speakEnd now =>
    refine ⟨fun t => by simp [step], fun hf => ?_⟩
    exfalso
    simp only [step] at hf
    rw [h] at hf
    cases hf

theorem summary_in_flight_exclusive_witness :
    Out.summarizeReq "seg one seg two seg three" ∉
      (step { startState 0 true with
                transcriptBuffer := ["seg one", "seg two"]
                summaryInFlight := true }
        (Event.finalResult "seg three" 200)).2 :=
  (summary_in_flight_exclusive
    { startState 0 true with
        transcriptBuffer := ["seg one", "seg two"]
        summaryInFlight := true }
    (Event.finalResult "seg three" 200) (by decide)).1 "seg one seg two seg three"

/-- C7 counterexample: stopping with a non-empty transcript while the
summary worker is not yet ready issues no final summarization request — the
stop branch is guarded by `summaryWorkerReady`, so the dispatch is not
unconditional. -/
theorem stop_requires_ready_cex :
    (run (startState 0 false) [Event.finalResult "hello there" 0]).1.transcriptBuffer ≠ [] ∧
    stopFinalSummarize (run (startState 0 false) [Event.finalResult "hello there" 0]).1 = [] := by
  decide

/-- C7 (amended): on interview stop, if the transcript is non-empty *and
the summary worker is ready*, exactly one final summarization request (the
whole buffer joined with spaces) is issued, regardless of the in-flight
flag or any other state. -/
theorem stop_final_summarize_characterization (s : AppState)
    (hbuf : s.transcriptBuffer ≠ []) (hready : s.summaryWorkerReady = true) :
    stopFinalSummarize s = [Out.summarizeReq (String.intercalate " " s.transcriptBuffer)] := by
  unfold stopFinalSummarize
  rw [if_pos ⟨List.length_pos.mpr hbuf, hready⟩]

theorem stop_final_summarize_characterization_witness :
    stopFinalSummarize
      { startState 0 true with transcriptBuffer := ["hello there"], summaryInFlight := true } =
      [Out.summarizeReq "hello there"] :=
  stop_final_summarize_characterization
    { startState 0 true with transcriptBuffer := ["hello there"], summaryInFlight := true }
    (by decide) (by decide)

/-- C8: a summarize request whose trimmed text is shorter than 50
characters is answered with the sentinel "Not enough content yet." summary
— not an error — and invokes no summarizer. -/
theorem short_input_sentinel (loaded : Bool) (bullet neural : String → String)
    (text : String) (h : (jsTrim text).length < 50) :
    handleSummarize loaded bullet neural text =
      (WorkerReply.summary "Not enough content yet.", false) := by
  unfold handleSummarize
  rw [if_pos (Or.inr h)]

theorem short_input_sentinel_witness :
    handleSummarize true id id "too short" =
      (WorkerReply.summary "Not enough content yet.", false) :=
  short_input_sentinel true id id "too short" (by decide)

/-- C9: `speakFiller` is a no-op when a prompt is already being spoken or
the phrase is whitespace-only; otherwise it raises the speaking flag and the
recognition suspension and stops recognition before playback, and —
independently of the playback outcome — ends with both flags cleared and
recognition restarted exactly when the interview is still active. -/
theorem speakFiller_characterization (phrase : String)
    (speaking0 suspend0 isRecording playbackOk : Bool) :
    (speaking0 = true →
      speakFiller phrase speaking0 suspend0 isRecording playbackOk =
        speakNoop speaking0 suspend0) ∧
    (jsTrim phrase = "" →
      speakFiller phrase speaking0 suspend0 isRecording playbackOk =
        speakNoop speaking0 suspend0) ∧
    (speaking0 = false → jsTrim phrase ≠ "" →
      speakFiller phrase speaking0 suspend0 isRecording playbackOk =
        { played := true, speakingDuringPlayback := true, suspendDuringPlayback := true,
          stoppedRecognition := true, speakingAfter := false, suspendAfter := false,
          restartedRecognition := isRecording }) ∧
    speakFiller phrase speaking0 suspend0 isRecording true =
      speakFiller phrase speaking0 suspend0 isRecording false := by
  refine ⟨fun h => ?_, fun h => ?_, fun h1 h2 => ?_, rfl⟩
  · unfold speakFiller
    rw [if_pos h]
  · unfold speakFiller
    by_cases hs : speaking0 = true
    · rw [if_pos hs]
    · rw [if_neg hs, if_pos h]
  · unfold speakFiller
    rw [if_neg (by rw [h1]; intro hc; cases hc), if_neg (fun hc => h2 hc)]

theorem speakFiller_characterization_witness :
    speakFiller "Got it." false false true true =
      { played := true, speakingDuringPlayback := true, suspendDuringPlayback := true,
        stoppedRecognition := true, speakingAfter := false, suspendAfter := false,
        restartedRecognition := true } :=
  (speakFiller_characterization "Got it." false false true true).2.2.1 rfl (by decide)

end InterviewSummarizer
